import Mathlib

/-!
Verification of the client-side state-synchronization engine of the
reverse-api-creator frontend: the typed API client (`lib/api.ts`), the
SWR-based job-status poller and mutation hooks (`lib/hooks.ts`), the
persisted zustand application store (`lib/store.ts`), the mutation
coordinators in `ApiDescriptionInput.tsx` / `CurlDisplay.tsx`, and the
column-resize controller in `RequestsTable.tsx`.

Every definition below is a shallow embedding of the corresponding
TypeScript declaration, keeping the source's names and field layout.
JavaScript `Record<string,string>` objects are embedded as association
lists, nullable/optional values as `Option`, and numbers as `Nat`/`Int`.
-/

set_option autoImplicit false

namespace ReverseApiCreator

/-! ### Data model (`types/index.ts`) -/

/-- The `status` union of `StatusResponse`:
`"pending" | "processing" | "completed" | "failed"`. -/
inductive JobStatus
  | pending
  | processing
  | completed
  | failed
deriving DecidableEq

/-- `StatusResponse` from `types/index.ts`. -/
structure StatusResponse where
  job_id : String
  filename : String
  status : JobStatus
  total_requests : Nat
  upload_timestamp : String
deriving DecidableEq

/-- `MatchedRequest` from `types/index.ts`. -/
structure MatchedRequest where
  url : String
  method : String
  domain : String
  path : String
  status_code : Int
  content_type : String
deriving DecidableEq

/-- `CurlResponse` from `types/index.ts`. -/
structure CurlResponse where
  curl_command : String
  matched_request : MatchedRequest
  request_id : Nat
  model_used : String
deriving DecidableEq

/-- `ExecutionRequest` from `types/index.ts`. -/
structure ExecutionRequest where
  url : String
  method : String
  headers : Option (List (String × String))
deriving DecidableEq

/-- `ExecutionResponse` from `types/index.ts`. -/
structure ExecutionResponse where
  status_code : Int
  status_text : String
  headers : List (String × String)
  body : String
  size_bytes : Nat
deriving DecidableEq

/-- `ExecutionTiming` from `types/index.ts`. -/
structure ExecutionTiming where
  execution_time_ms : Nat
  dns_time_ms : Option Nat
  connect_time_ms : Option Nat
deriving DecidableEq

/-- `ExecutionError` from `types/index.ts`. -/
structure ExecutionError where
  type : String
  message : String
  details : String
  suggestions : List String
deriving DecidableEq

/-- `ExecuteResponse` from `types/index.ts`: the structured result of
`POST /execute-request`; `success = false` is a normal payload, not a
transport error. -/
structure ExecuteResponse where
  success : Bool
  request : ExecutionRequest
  response : Option ExecutionResponse
  timing : ExecutionTiming
  error : Option ExecutionError
deriving DecidableEq

/-- `ParameterOverrides` from `types/index.ts`. -/
structure ParameterOverrides where
  queryParams : List (String × String)
  headers : List (String × String)
  body : Option String
deriving DecidableEq

/-- `ExecutionSettings` from `types/index.ts`. -/
structure ExecutionSettings where
  timeout : Nat
  followRedirects : Bool
deriving DecidableEq

/-! ### RemoteServiceClient (`lib/api.ts`)

Each operation of the `api` object ends in
`if (!res.ok) { ... throw new Error(msg) } return res.json()`.
What differs between operations is how `msg` is computed: four of them
run `const error = await res.json().catch(() => ({detail: fallback}));
throw new Error(error.detail || fallback)`, and three throw a fixed
string without looking at the body. -/

/-- What `res.json()` yields on a non-success response, as far as the
error path can observe it: the body is not JSON at all (`res.json()`
rejects), or it is JSON carrying an optional string `detail` field. -/
inductive ErrorBody
  | notJson
  | json (detail : Option String)
deriving DecidableEq

/-- The message computed by
`const error = await res.json().catch(() => ({ detail: fallback }));
throw new Error(error.detail || fallback)`.
A rejected `res.json()` is replaced by `{detail: fallback}`; a missing
`detail` field is `undefined` and falsy; an empty-string `detail` is
falsy under `||` as well, so all three cases give back `fallback`. -/
def detailOrFallback (body : ErrorBody) (fallback : String) : String :=
  match body with
  | .notJson => fallback
  | .json none => fallback
  | .json (some d) => if d = "" then fallback else d

/-- The seven operations of the `api` object in `lib/api.ts`. -/
inductive ApiOp
  | uploadHar
  | urlToHar
  | getStatus
  | getJobRequests
  | generateCurl
  | getRequestDetails
  | executeRequest
deriving DecidableEq

/-- The message of the `Error` thrown by each operation on a non-success
response, transcribed from `lib/api.ts`: `uploadHar`, `urlToHar`,
`generateCurl` and `executeRequest` attempt to decode the structured
body and fall back to a fixed string; `getStatus`, `getJobRequests` and
`getRequestDetails` throw their fixed string unconditionally. -/
def errorMessage : ApiOp → ErrorBody → String
  | .uploadHar, body => detailOrFallback body "Upload failed"
  | .urlToHar, body => detailOrFallback body "URL to HAR conversion failed"
  | .getStatus, _ => "Failed to fetch status"
  | .getJobRequests, _ => "Failed to fetch job requests"
  | .generateCurl, body => detailOrFallback body "Failed to generate curl"
  | .getRequestDetails, _ => "Failed to fetch request details"
  | .executeRequest, body => detailOrFallback body "Failed to execute request"

/-- The common shape of every `api` operation: on `res.ok` return the
decoded payload, otherwise throw an `Error` whose message is the
operation-specific `errorMessage`. -/
def apiCall {α : Type} (op : ApiOp) (ok : Bool) (body : ErrorBody)
    (payload : α) : Except String α :=
  if ok then .ok payload else .error (errorMessage op body)

/-! ### JobStatusPoller (`lib/hooks.ts`, `useJobStatus`) -/

/-- The SWR key of `useJobStatus`:
``jobId ? `/status/${jobId}` : null``. A `null` or empty (falsy) job
identifier disables the subscription. -/
def useJobStatusKey (jobId : Option String) : Option String :=
  match jobId with
  | some j => if j = "" then none else some ("/status/" ++ j)
  | none => none

/-- The `refreshInterval` option of `useJobStatus`:
`data?.status === "completed" || data?.status === "failed" ? 0 : 2000`.
With no data yet (`data` undefined) the optional chain is `undefined`,
the comparison is false, and the interval is 2000. -/
def refreshInterval (data : Option StatusResponse) : Nat :=
  match data with
  | some d =>
    if d.status = JobStatus.completed ∨ d.status = JobStatus.failed then 0
    else 2000
  | none => 2000

/-! ### PersistentAppStore (`lib/store.ts`)

The zustand store's state record, its documented initial values, and its
actions. A zustand `set({...})` shallow-merges the given keys into the
current state, which on this flat record is exactly a record update. -/

/-- The `activeDetailsTab` union in `AppState`. -/
inductive DetailsTab
  | auth
  | params
  | response
  | timing
deriving DecidableEq

/-- The `activeParamsTab` union in `AppState`. -/
inductive ParamsTab
  | query
  | headers
  | body
deriving DecidableEq

/-- The `activeResponseTab` union in `AppState`. -/
inductive ResponseTab
  | body
  | headers
  | timing
deriving DecidableEq

/-- The data fields of the `AppState` interface in `lib/store.ts`
(the actions are modelled as functions below). -/
structure AppState where
  _hasHydrated : Bool
  jobId : Option String
  fileName : Option String
  totalRequests : Nat
  uploadProgress : Nat
  promptText : String
  isGenerating : Bool
  curlCommand : Option String
  matchedRequest : Option MatchedRequest
  selectedRequestId : Option Nat
  modelUsed : Option String
  activeDetailsTab : DetailsTab
  activeParamsTab : ParamsTab
  activeResponseTab : ResponseTab
  overrides : ParameterOverrides
  executionSettings : ExecutionSettings
  executionCount : Nat
  isExecuting : Bool
  executionResult : Option ExecuteResponse
deriving DecidableEq

/-- `const initialOverrides = { queryParams: {}, headers: {}, body: null }`. -/
def initialOverrides : ParameterOverrides :=
  { queryParams := [], headers := [], body := none }

/-- `const initialExecutionSettings = { timeout: 30, followRedirects: true }`. -/
def initialExecutionSettings : ExecutionSettings :=
  { timeout := 30, followRedirects := true }

/-- The initial state literal passed to `create` in `lib/store.ts`. -/
def initialState : AppState where
  _hasHydrated := false
  jobId := none
  fileName := none
  totalRequests := 0
  uploadProgress := 0
  promptText := ""
  isGenerating := false
  curlCommand := none
  matchedRequest := none
  selectedRequestId := none
  modelUsed := none
  activeDetailsTab := .auth
  activeParamsTab := .query
  activeResponseTab := .body
  overrides := initialOverrides
  executionSettings := initialExecutionSettings
  executionCount := 0
  isExecuting := false
  executionResult := none

/-- `setJobId: (id, fileName, total) => set({ jobId: id, fileName, totalRequests: total })`. -/
def setJobId (id : Option String) (fileName : Option String) (total : Nat)
    (s : AppState) : AppState :=
  { s with jobId := id, fileName := fileName, totalRequests := total }

/-- `setPromptText: (text) => set({ promptText: text })`. -/
def setPromptText (text : String) (s : AppState) : AppState :=
  { s with promptText := text }

/-- `setGenerationResult: (curl, request, requestId, model) => set({...})`. -/
def setGenerationResult (curl : String) (request : MatchedRequest)
    (requestId : Nat) (model : String) (s : AppState) : AppState :=
  { s with
    curlCommand := some curl
    matchedRequest := some request
    selectedRequestId := some requestId
    modelUsed := some model
    isGenerating := false }

/-- The `(type, data)` argument pair of `updateOverrides`, with the payload
typed by the tag it is stored under (`"query" → queryParams`,
`"headers" → headers`, `"body" → body`). -/
inductive OverrideUpdate
  | query (data : List (String × String))
  | headers (data : List (String × String))
  | body (data : Option String)
deriving DecidableEq

/-- `updateOverrides: (type, data) => set((state) => ({ overrides:
{ ...state.overrides, [key]: data } }))` — spreads the previous
overrides and replaces the one keyed field. -/
def updateOverrides (u : OverrideUpdate) (s : AppState) : AppState :=
  match u with
  | .query data => { s with overrides := { s.overrides with queryParams := data } }
  | .headers data => { s with overrides := { s.overrides with headers := data } }
  | .body data => { s with overrides := { s.overrides with body := data } }

/-- `resetOverrides: () => set({ overrides: initialOverrides })`. -/
def resetOverrides (s : AppState) : AppState :=
  { s with overrides := initialOverrides }

/-- `setActiveDetailsTab: (tab) => set({ activeDetailsTab: tab })`. -/
def setActiveDetailsTab (tab : DetailsTab) (s : AppState) : AppState :=
  { s with activeDetailsTab := tab }

/-- `setActiveParamsTab: (tab) => set({ activeParamsTab: tab })`. -/
def setActiveParamsTab (tab : ParamsTab) (s : AppState) : AppState :=
  { s with activeParamsTab := tab }

/-- `setActiveResponseTab: (tab) => set({ activeResponseTab: tab })`. -/
def setActiveResponseTab (tab : ResponseTab) (s : AppState) : AppState :=
  { s with activeResponseTab := tab }

/-- `incrementExecutionCount: () => set((state) => ({ executionCount:
state.executionCount + 1 }))`. -/
def incrementExecutionCount (s : AppState) : AppState :=
  { s with executionCount := s.executionCount + 1 }

/-- A `Partial<ExecutionSettings>` argument: each key optionally present. -/
structure ExecutionSettingsPatch where
  timeout : Option Nat
  followRedirects : Option Bool
deriving DecidableEq

/-- `setExecutionSettings: (settings) => set((state) => ({
executionSettings: { ...state.executionSettings, ...settings } }))` —
keys present in the patch win, absent keys keep their current value. -/
def setExecutionSettings (settings : ExecutionSettingsPatch)
    (s : AppState) : AppState :=
  { s with executionSettings :=
    { timeout := settings.timeout.getD s.executionSettings.timeout
      followRedirects :=
        settings.followRedirects.getD s.executionSettings.followRedirects } }

/-- `setIsExecuting: (isExecuting) => set({ isExecuting })`. -/
def setIsExecuting (b : Bool) (s : AppState) : AppState :=
  { s with isExecuting := b }

/-- `setExecutionResult: (result) => set({ executionResult: result })`. -/
def setExecutionResult (result : Option ExecuteResponse)
    (s : AppState) : AppState :=
  { s with executionResult := result }

/-- `setHasHydrated: (hasHydrated) => set({ _hasHydrated: hasHydrated })`. -/
def setHasHydrated (hasHydrated : Bool) (s : AppState) : AppState :=
  { s with _hasHydrated := hasHydrated }

/-- `resetState: () => set({...})` — one `set` call listing every data
field except `_hasHydrated`, each at its initial value. -/
def resetState (s : AppState) : AppState :=
  { s with
    jobId := none
    fileName := none
    totalRequests := 0
    uploadProgress := 0
    promptText := ""
    isGenerating := false
    curlCommand := none
    matchedRequest := none
    selectedRequestId := none
    modelUsed := none
    activeDetailsTab := .auth
    activeParamsTab := .query
    activeResponseTab := .body
    overrides := initialOverrides
    executionSettings := initialExecutionSettings
    executionCount := 0
    isExecuting := false
    executionResult := none }

/-! ### Persistence (`persist` options in `lib/store.ts`) -/

/-- The record returned by the `partialize` option: the named snapshot
written to `cloudcruise-storage`. It carries exactly the fields listed
in the source — no `_hasHydrated`, no `isGenerating`, no `isExecuting`,
no `uploadProgress`. -/
structure PersistedSnapshot where
  jobId : Option String
  fileName : Option String
  totalRequests : Nat
  promptText : String
  curlCommand : Option String
  matchedRequest : Option MatchedRequest
  selectedRequestId : Option Nat
  modelUsed : Option String
  activeDetailsTab : DetailsTab
  activeParamsTab : ParamsTab
  activeResponseTab : ResponseTab
  overrides : ParameterOverrides
  executionSettings : ExecutionSettings
  executionCount : Nat
  executionResult : Option ExecuteResponse
deriving DecidableEq

/-- `partialize: (state) => ({ jobId: state.jobId, ... })`. -/
def partialize (s : AppState) : PersistedSnapshot where
  jobId := s.jobId
  fileName := s.fileName
  totalRequests := s.totalRequests
  promptText := s.promptText
  curlCommand := s.curlCommand
  matchedRequest := s.matchedRequest
  selectedRequestId := s.selectedRequestId
  modelUsed := s.modelUsed
  activeDetailsTab := s.activeDetailsTab
  activeParamsTab := s.activeParamsTab
  activeResponseTab := s.activeResponseTab
  overrides := s.overrides
  executionSettings := s.executionSettings
  executionCount := s.executionCount
  executionResult := s.executionResult

/-- The persist middleware's default merge of a stored snapshot into the
current state: the persisted keys overwrite, every other key keeps its
current value. -/
def applySnapshot (p : PersistedSnapshot) (s : AppState) : AppState :=
  { s with
    jobId := p.jobId
    fileName := p.fileName
    totalRequests := p.totalRequests
    promptText := p.promptText
    curlCommand := p.curlCommand
    matchedRequest := p.matchedRequest
    selectedRequestId := p.selectedRequestId
    modelUsed := p.modelUsed
    activeDetailsTab := p.activeDetailsTab
    activeParamsTab := p.activeParamsTab
    activeResponseTab := p.activeResponseTab
    overrides := p.overrides
    executionSettings := p.executionSettings
    executionCount := p.executionCount
    executionResult := p.executionResult }

/-- The rehydration step: restore the stored snapshot (if any) into the
state, then run the `onRehydrateStorage` callback
`(state) => { state?.setHasHydrated(true); }`. -/
def rehydrate (stored : Option PersistedSnapshot) (s : AppState) : AppState :=
  setHasHydrated true
    (match stored with
    | some p => applySnapshot p s
    | none => s)

/-- The store actions invoked by components (every action of the
`AppState` interface except `setHasHydrated`, whose only call site is
the `onRehydrateStorage` callback inside the store itself). -/
inductive Action
  | setJobId (id : Option String) (fileName : Option String) (total : Nat)
  | setPromptText (text : String)
  | setGenerationResult (curl : String) (request : MatchedRequest)
      (requestId : Nat) (model : String)
  | updateOverrides (u : OverrideUpdate)
  | resetOverrides
  | setActiveDetailsTab (tab : DetailsTab)
  | setActiveParamsTab (tab : ParamsTab)
  | setActiveResponseTab (tab : ResponseTab)
  | incrementExecutionCount
  | setExecutionSettings (settings : ExecutionSettingsPatch)
  | setIsExecuting (b : Bool)
  | setExecutionResult (result : Option ExecuteResponse)
  | resetState
deriving DecidableEq

/-- Dispatch of an `Action` to the corresponding store setter. -/
def Action.apply : Action → AppState → AppState
  | .setJobId id fileName total, s => ReverseApiCreator.setJobId id fileName total s
  | .setPromptText text, s => ReverseApiCreator.setPromptText text s
  | .setGenerationResult curl request requestId model, s =>
      ReverseApiCreator.setGenerationResult curl request requestId model s
  | .updateOverrides u, s => ReverseApiCreator.updateOverrides u s
  | .resetOverrides, s => ReverseApiCreator.resetOverrides s
  | .setActiveDetailsTab tab, s => ReverseApiCreator.setActiveDetailsTab tab s
  | .setActiveParamsTab tab, s => ReverseApiCreator.setActiveParamsTab tab s
  | .setActiveResponseTab tab, s => ReverseApiCreator.setActiveResponseTab tab s
  | .incrementExecutionCount, s => ReverseApiCreator.incrementExecutionCount s
  | .setExecutionSettings settings, s => ReverseApiCreator.setExecutionSettings settings s
  | .setIsExecuting b, s => ReverseApiCreator.setIsExecuting b s
  | .setExecutionResult result, s => ReverseApiCreator.setExecutionResult result s
  | .resetState, s => ReverseApiCreator.resetState s

/-- Run a sequence of component-invoked store actions left to right. -/
def runActions (as : List Action) (s : AppState) : AppState :=
  as.foldl (fun t a => a.apply t) s

/-! ### MutationCoordinators

`handleExecute` (`CurlDisplay.tsx`) and `handleGenerate`
(`ApiDescriptionInput.tsx`) await an SWR mutation `trigger`; the awaited
call either resolves with the typed payload or rejects with the `Error`
thrown by the API layer. -/

/-- The settled outcome of an awaited remote call. -/
inductive CallOutcome (α : Type)
  | ok (value : α)
  | thrown (message : String)
deriving DecidableEq

/-- The observable result of running a coordinator: the store state it
leaves behind, and the error its `catch` block received and logged
(`none` when the call resolved). Neither coordinator rethrows. -/
structure CoordinatorResult where
  state : AppState
  caught : Option String
deriving DecidableEq

/-- The two statements run unconditionally at the top of `handleExecute`
once the `selectedRequestId` guard passes:
`setIsExecuting(true); setExecutionResult(null);`. -/
def handleExecuteStart (s : AppState) : AppState :=
  setExecutionResult none (setIsExecuting true s)

/-- The `try`/`catch`/`finally` of `handleExecute`: on resolution the
result is committed via `setExecutionResult(result)`; on rejection the
`catch` only logs; the `finally` runs `setIsExecuting(false)` either
way. -/
def handleExecuteSettle (outcome : CallOutcome ExecuteResponse)
    (s : AppState) : CoordinatorResult :=
  match outcome with
  | .ok result => ⟨setIsExecuting false (setExecutionResult (some result) s), none⟩
  | .thrown e => ⟨setIsExecuting false s, some e⟩

/-- `handleExecute` from `CurlDisplay.tsx`:
`if (!selectedRequestId) return;` then start, await, settle. -/
def handleExecute (selectedRequestId : Option Nat)
    (outcome : CallOutcome ExecuteResponse) (s : AppState) : CoordinatorResult :=
  match selectedRequestId with
  | none => ⟨s, none⟩
  | some _ => handleExecuteSettle outcome (handleExecuteStart s)

/-- The state of a `useSWRMutation` hook as its component observes it:
the `isMutating` in-flight flag and the `error` slot. While the awaited
`trigger` runs, `isMutating` is true; when it settles, `isMutating` is
false and `error` is set exactly on rejection, which is also rethrown
to the code awaiting `trigger`. -/
structure MutationState where
  isMutating : Bool
  error : Option String
deriving DecidableEq

/-- JavaScript `String.prototype.trim`: drop leading and trailing
whitespace. Embedded over the character list so that it evaluates by
`decide`. -/
def trimString (s : String) : String :=
  ⟨((s.data.dropWhile Char.isWhitespace).reverse.dropWhile
      Char.isWhitespace).reverse⟩

/-- The observable result of `handleGenerate`: store state, the
mutation hook's settled state, and the error its `catch` logged. -/
structure GenerateResult where
  state : AppState
  mutation : MutationState
  caught : Option String
deriving DecidableEq

/-- `handleGenerate` from `ApiDescriptionInput.tsx`:
`if (!jobId || !promptText.trim()) return;` (a falsy `jobId` is `null`
or `""`; a falsy trimmed prompt is `""`), then
`try { const result = await trigger({...}); setGenerationResult(...) }
catch (err) { console.error(...) }`. On rejection the hook records the
error and rethrows it into the `catch`; the store is not touched. -/
def handleGenerate (jobId : Option String) (promptText : String)
    (outcome : CallOutcome CurlResponse) (s : AppState) (m : MutationState) :
    GenerateResult :=
  if jobId = none ∨ jobId = some "" ∨ trimString promptText = "" then ⟨s, m, none⟩
  else
    match outcome with
    | .ok result =>
        ⟨setGenerationResult result.curl_command result.matched_request
          result.request_id result.model_used s, ⟨false, none⟩, none⟩
    | .thrown e => ⟨s, ⟨false, some e⟩, some e⟩

/-! ### ColumnResizeController (`RequestsTable.tsx`) -/

/-- The `ColumnKey` union of resizable columns. -/
inductive ColumnKey
  | method
  | domain
  | path
  | status
  | type
  | duration
deriving DecidableEq

/-- The `ColumnWidths` record of per-column pixel widths. -/
structure ColumnWidths where
  method : Int
  domain : Int
  path : Int
  status : Int
  type : Int
  duration : Int
deriving DecidableEq

/-- The `useState` initializer for `columnWidths`. -/
def initialColumnWidths : ColumnWidths where
  method := 80
  domain := 150
  path := 300
  status := 70
  type := 120
  duration := 90

/-- Read one column's width (`columnWidths[column]`). -/
def ColumnWidths.get (w : ColumnWidths) : ColumnKey → Int
  | .method => w.method
  | .domain => w.domain
  | .path => w.path
  | .status => w.status
  | .type => w.type
  | .duration => w.duration

/-- Write one column's width (`{ ...prev, [column]: v }`). -/
def ColumnWidths.put (w : ColumnWidths) : ColumnKey → Int → ColumnWidths
  | .method, v => { w with method := v }
  | .domain, v => { w with domain := v }
  | .path, v => { w with path := v }
  | .status, v => { w with status := v }
  | .type, v => { w with type := v }
  | .duration, v => { w with duration := v }

/-- The drag session captured by `handleMouseDown`:
`setResizingColumn(column); setStartX(e.clientX);
setStartWidth(columnWidths[column]);`. -/
structure DragSession where
  column : ColumnKey
  startX : Int
  startWidth : Int
deriving DecidableEq

/-- `handleMouseDown` from `RequestsTable.tsx`. -/
def handleMouseDown (column : ColumnKey) (clientX : Int)
    (w : ColumnWidths) : DragSession :=
  ⟨column, clientX, w.get column⟩

/-- `handleMouseMove` from `RequestsTable.tsx`:
`const diff = e.clientX - startX;
const newWidth = Math.max(50, startWidth + diff);
setColumnWidths((prev) => ({ ...prev, [resizingColumn]: newWidth }));`. -/
def handleMouseMove (resizingColumn : ColumnKey) (startX startWidth clientX : Int)
    (w : ColumnWidths) : ColumnWidths :=
  w.put resizingColumn (max 50 (startWidth + (clientX - startX)))

/-! ### Concrete sample values used by witnesses -/

/-- A concrete `MatchedRequest`. -/
def sampleMatched : MatchedRequest where
  url := "https://api.example.com/v1/items"
  method := "GET"
  domain := "api.example.com"
  path := "/v1/items"
  status_code := 200
  content_type := "application/json"

/-- A concrete structured execution error. -/
def sampleError : ExecutionError where
  type := "authentication_error"
  message := "Authentication required"
  details := "401 Unauthorized"
  suggestions := ["Provide a token"]

/-- A concrete structured-failure `ExecuteResponse` (`success = false`). -/
def sampleFailure : ExecuteResponse where
  success := false
  request := { url := "https://api.example.com/v1/items", method := "GET", headers := none }
  response := none
  timing := { execution_time_ms := 12, dns_time_ms := none, connect_time_ms := none }
  error := some sampleError

/-- A reachable state holding a previous job's match and execution
results: the initial state after `setGenerationResult` and
`setExecutionResult`. -/
def staleState : AppState :=
  setExecutionResult (some sampleFailure)
    (setGenerationResult "curl https://api.example.com/v1/items" sampleMatched 7
      "example-model" initialState)

/-! ### Helper lemmas -/

/-- No component-invoked store action changes the hydration flag
(`setHasHydrated` is excluded from `Action`: its only call site is the
store's own rehydration callback). -/
theorem apply_hasHydrated (a : Action) (t : AppState) :
    (a.apply t)._hasHydrated = t._hasHydrated := by
  cases a
  case updateOverrides u => cases u <;> rfl
  all_goals rfl

/-- The hydration flag is invariant under any sequence of
component-invoked store actions. -/
theorem runActions_hasHydrated (as : List Action) (t : AppState) :
    (runActions as t)._hasHydrated = t._hasHydrated := by
  induction as generalizing t with
  | nil => rfl
  | cons a as ih =>
      have h : runActions (a :: as) t = runActions as (a.apply t) := rfl
      rw [h, ih, apply_hasHydrated]

/-- Every action either keeps `curlCommand`, or writes a `some` value to
it, or is `resetState`. -/
theorem apply_curlCommand (a : Action) (t : AppState) :
    (a.apply t).curlCommand = t.curlCommand ∨
      (∃ c, (a.apply t).curlCommand = some c) ∨ a = Action.resetState := by
  cases a
  case setGenerationResult curl request requestId model =>
    exact Or.inr (Or.inl ⟨curl, rfl⟩)
  case resetState => exact Or.inr (Or.inr rfl)
  case updateOverrides u => cases u <;> exact Or.inl rfl
  all_goals exact Or.inl rfl

/-! ### Claims -/

/-- Claim C1: for every poll cycle of the job-status poller, the
`refreshInterval` computed from the most recently fetched job status is
0 when that status is `completed` or `failed` (no further fetch is
scheduled) and exactly 2000 ms when it is `pending` or `processing`. -/
theorem c1_poller_next_delay (d : StatusResponse) :
    ((d.status = JobStatus.completed ∨ d.status = JobStatus.failed) →
      refreshInterval (some d) = 0) ∧
    ((d.status = JobStatus.pending ∨ d.status = JobStatus.processing) →
      refreshInterval (some d) = 2000) := by
  refine ⟨fun h => ?_, fun h => ?_⟩ <;>
    rcases h with h | h <;> simp [refreshInterval, h]

/-- Witness for C1 at a completed and at a pending status. -/
theorem c1_poller_next_delay_witness :
    refreshInterval (some ⟨"j1", "a.har", JobStatus.completed, 3, "t"⟩) = 0 ∧
    refreshInterval (some ⟨"j1", "a.har", JobStatus.pending, 3, "t"⟩) = 2000 :=
  ⟨(c1_poller_next_delay _).1 (Or.inl rfl),
   (c1_poller_next_delay _).2 (Or.inl rfl)⟩

/-- Claim C2, counterexample: `fetchStatus` (`getStatus`) never decodes
the error body. On a non-success response whose body decodes as
`{detail: "Job not found"}`, the thrown message is the fixed
"Failed to fetch status", not the detail text the claim requires. -/
theorem c2_counterexample :
    apiCall ApiOp.getStatus false (ErrorBody.json (some "Job not found")) () =
      Except.error "Failed to fetch status" ∧
    apiCall ApiOp.getStatus false (ErrorBody.json (some "Job not found")) () ≠
      Except.error "Job not found" := by
  refine ⟨rfl, fun h => ?_⟩
  have hm : errorMessage ApiOp.getStatus (ErrorBody.json (some "Job not found")) =
      "Job not found" := by
    simpa [apiCall] using h
  exact absurd hm (by decide)

/-- Claim C2 (amended): only `submitFile` (`uploadHar`),
`submitUrl` (`urlToHar`), `generateMatch` (`generateCurl`) and
`executeItem` (`executeRequest`) decode the structured error body: for
those, on a non-success response the thrown message equals the decoded
`detail` when the body decodes as `{detail: string}` with non-empty
detail, and the fixed operation-specific fallback otherwise (body not
JSON, no `detail` field, or empty detail). `fetchStatus`,
`fetchJobItems` and `fetchItemDetails` always throw their fixed
operation-specific message without attempting to decode the body. In
particular `submitFile` on HTTP 400 with body `{"detail":"Invalid file"}`
throws "Invalid file", and on HTTP 500 with a non-JSON body throws
"Upload failed". -/
theorem c2_error_normalization :
    (∀ d : String, d ≠ "" →
      apiCall ApiOp.uploadHar false (ErrorBody.json (some d)) () = Except.error d ∧
      apiCall ApiOp.urlToHar false (ErrorBody.json (some d)) () = Except.error d ∧
      apiCall ApiOp.generateCurl false (ErrorBody.json (some d)) () = Except.error d ∧
      apiCall ApiOp.executeRequest false (ErrorBody.json (some d)) () = Except.error d) ∧
    (∀ b : ErrorBody,
      b = ErrorBody.notJson ∨ b = ErrorBody.json none ∨ b = ErrorBody.json (some "") →
      apiCall ApiOp.uploadHar false b () = Except.error "Upload failed" ∧
      apiCall ApiOp.urlToHar false b () = Except.error "URL to HAR conversion failed" ∧
      apiCall ApiOp.generateCurl false b () = Except.error "Failed to generate curl" ∧
      apiCall ApiOp.executeRequest false b () = Except.error "Failed to execute request") ∧
    (∀ b : ErrorBody,
      apiCall ApiOp.getStatus false b () = Except.error "Failed to fetch status" ∧
      apiCall ApiOp.getJobRequests false b () = Except.error "Failed to fetch job requests" ∧
      apiCall ApiOp.getRequestDetails false b () =
        Except.error "Failed to fetch request details") ∧
    apiCall ApiOp.uploadHar false (ErrorBody.json (some "Invalid file")) () =
      Except.error "Invalid file" ∧
    apiCall ApiOp.uploadHar false ErrorBody.notJson () = Except.error "Upload failed" := by
  refine ⟨fun d hd => ?_, fun b hb => ?_, fun b => ?_, ?_, ?_⟩
  · refine ⟨?_, ?_, ?_, ?_⟩ <;> simp [apiCall, errorMessage, detailOrFallback, hd]
  · rcases hb with hb | hb | hb <;> subst hb <;>
      exact ⟨rfl, rfl, rfl, rfl⟩
  · exact ⟨rfl, rfl, rfl⟩
  · simp [apiCall, errorMessage, detailOrFallback]
  · rfl

/-- Witness for C2 (amended) at concrete bodies. -/
theorem c2_error_normalization_witness :
    apiCall ApiOp.uploadHar false (ErrorBody.json (some "Invalid file")) () =
      Except.error "Invalid file" ∧
    apiCall ApiOp.getStatus false (ErrorBody.json (some "Invalid file")) () =
      Except.error "Failed to fetch status" :=
  ⟨(c2_error_normalization.1 "Invalid file" (by decide)).1,
   (c2_error_normalization.2.2.1 (ErrorBody.json (some "Invalid file"))).1⟩

/-- Claim C3: from every reachable state, `resetState` brings every data
field — job identity, generation result, execution result, overrides,
execution settings, counters, UI tab selections, in-flight flags — back
to its documented initial value, in a single replacement: the resulting
state is exactly the initial state (the hydration flag, which is not in
`resetState`'s field list, keeps its current value). -/
theorem c3_reset_state (s : AppState) :
    (resetState s).jobId = initialState.jobId ∧
    (resetState s).fileName = initialState.fileName ∧
    (resetState s).totalRequests = initialState.totalRequests ∧
    (resetState s).uploadProgress = initialState.uploadProgress ∧
    (resetState s).promptText = initialState.promptText ∧
    (resetState s).isGenerating = initialState.isGenerating ∧
    (resetState s).curlCommand = initialState.curlCommand ∧
    (resetState s).matchedRequest = initialState.matchedRequest ∧
    (resetState s).selectedRequestId = initialState.selectedRequestId ∧
    (resetState s).modelUsed = initialState.modelUsed ∧
    (resetState s).activeDetailsTab = initialState.activeDetailsTab ∧
    (resetState s).activeParamsTab = initialState.activeParamsTab ∧
    (resetState s).activeResponseTab = initialState.activeResponseTab ∧
    (resetState s).overrides = initialState.overrides ∧
    (resetState s).executionSettings = initialState.executionSettings ∧
    (resetState s).executionCount = initialState.executionCount ∧
    (resetState s).isExecuting = initialState.isExecuting ∧
    (resetState s).executionResult = initialState.executionResult ∧
    resetState s = { initialState with _hasHydrated := s._hasHydrated } :=
  ⟨rfl, rfl, rfl, rfl, rfl, rfl, rfl, rfl, rfl, rfl, rfl, rfl, rfl, rfl, rfl,
   rfl, rfl, rfl, rfl⟩

/-- Witness for C3 at a state carrying stale results. -/
theorem c3_reset_state_witness :
    (resetState staleState).jobId = initialState.jobId ∧
    resetState staleState = { initialState with _hasHydrated := staleState._hasHydrated } :=
  ⟨(c3_reset_state staleState).1,
   (c3_reset_state staleState).2.2.2.2.2.2.2.2.2.2.2.2.2.2.2.2.2.2⟩

/-- Claim C4: `handleExecute` sets `isExecuting = true` and clears the
prior `executionResult` at invocation start; when `executeItem` resolves
with a structured failure (`success = false`), that full result is
committed into `executionResult`, `isExecuting` is cleared, and nothing
is thrown; when the call itself rejects (transport-level failure), the
error is surfaced to the awaiting coordinator — delivered to its
`catch`, which logs it — `isExecuting` is cleared, and `executionResult`
is left `null`. -/
theorem c4_execute_coordinator (id : Nat) (s : AppState) (r : ExecuteResponse)
    (e : String) :
    ((handleExecuteStart s).isExecuting = true ∧
     (handleExecuteStart s).executionResult = none) ∧
    (r.success = false →
      (handleExecute (some id) (CallOutcome.ok r) s).state.executionResult = some r ∧
      (handleExecute (some id) (CallOutcome.ok r) s).state.isExecuting = false ∧
      (handleExecute (some id) (CallOutcome.ok r) s).caught = none) ∧
    ((handleExecute (some id) (CallOutcome.thrown e) s).state.isExecuting = false ∧
     (handleExecute (some id) (CallOutcome.thrown e) s).state.executionResult = none ∧
     (handleExecute (some id) (CallOutcome.thrown e) s).caught = some e) :=
  ⟨⟨rfl, rfl⟩, fun _ => ⟨rfl, rfl, rfl⟩, ⟨rfl, rfl, rfl⟩⟩

/-- Witness for C4: a concrete structured authentication failure is
committed whole, with no error escaping. -/
theorem c4_execute_coordinator_witness :
    sampleFailure.success = false ∧
    (handleExecute (some 7) (CallOutcome.ok sampleFailure) initialState).state.executionResult =
      some sampleFailure ∧
    (handleExecute (some 7) (CallOutcome.ok sampleFailure) initialState).caught = none :=
  ⟨rfl,
   ((c4_execute_coordinator 7 initialState sampleFailure "boom").2.1 rfl).1,
   ((c4_execute_coordinator 7 initialState sampleFailure "boom").2.1 rfl).2.2⟩

/-- Claim C5: when a generate-match invocation's remote call rejects,
the store is left exactly as it was — in particular `curlCommand`,
`matchedRequest`, `selectedRequestId` and `modelUsed` are unchanged —
the hook's in-flight flag is cleared, and the error is surfaced only to
the caller (the hook's error slot and the coordinator's `catch`), never
written into the store. -/
theorem c5_generate_failure (j promptText e : String) (s : AppState)
    (m : MutationState) (hj : j ≠ "") (hp : trimString promptText ≠ "") :
    (handleGenerate (some j) promptText (CallOutcome.thrown e) s m).state = s ∧
    (handleGenerate (some j) promptText (CallOutcome.thrown e) s m).state.curlCommand =
      s.curlCommand ∧
    (handleGenerate (some j) promptText (CallOutcome.thrown e) s m).state.matchedRequest =
      s.matchedRequest ∧
    (handleGenerate (some j) promptText (CallOutcome.thrown e) s m).state.selectedRequestId =
      s.selectedRequestId ∧
    (handleGenerate (some j) promptText (CallOutcome.thrown e) s m).state.modelUsed =
      s.modelUsed ∧
    (handleGenerate (some j) promptText (CallOutcome.thrown e) s m).mutation.isMutating =
      false ∧
    (handleGenerate (some j) promptText (CallOutcome.thrown e) s m).mutation.error =
      some e ∧
    (handleGenerate (some j) promptText (CallOutcome.thrown e) s m).caught = some e := by
  have hguard :
      ¬((some j : Option String) = none ∨ (some j : Option String) = some "" ∨
        trimString promptText = "") := by
    simp [hj, hp]
  unfold handleGenerate
  rw [if_neg hguard]
  exact ⟨rfl, rfl, rfl, rfl, rfl, rfl, rfl, rfl⟩

/-- Witness for C5 at a concrete rejected invocation over a state
already holding a match result. -/
theorem c5_generate_failure_witness :
    (handleGenerate (some "j1") "weather" (CallOutcome.thrown "boom") staleState
      ⟨true, none⟩).state = staleState ∧
    (handleGenerate (some "j1") "weather" (CallOutcome.thrown "boom") staleState
      ⟨true, none⟩).mutation.isMutating = false :=
  ⟨(c5_generate_failure "j1" "weather" "boom" staleState ⟨true, none⟩ (by decide)
      (by decide)).1,
   (c5_generate_failure "j1" "weather" "boom" staleState ⟨true, none⟩ (by decide)
      (by decide)).2.2.2.2.2.1⟩

/-- Claim C6: `updateOverrides` with one tag of `query`/`headers`/`body`
replaces only the corresponding override field and leaves the other two
unchanged; from the default overrides,
`updateOverrides("headers", {Authorization: "Bearer x"})` yields
`{queryParams: {}, headers: {Authorization: "Bearer x"}, body: null}`. -/
theorem c6_update_overrides (q hs : List (String × String)) (b : Option String)
    (s : AppState) :
    ((updateOverrides (OverrideUpdate.query q) s).overrides.queryParams = q ∧
     (updateOverrides (OverrideUpdate.query q) s).overrides.headers = s.overrides.headers ∧
     (updateOverrides (OverrideUpdate.query q) s).overrides.body = s.overrides.body) ∧
    ((updateOverrides (OverrideUpdate.headers hs) s).overrides.headers = hs ∧
     (updateOverrides (OverrideUpdate.headers hs) s).overrides.queryParams =
       s.overrides.queryParams ∧
     (updateOverrides (OverrideUpdate.headers hs) s).overrides.body = s.overrides.body) ∧
    ((updateOverrides (OverrideUpdate.body b) s).overrides.body = b ∧
     (updateOverrides (OverrideUpdate.body b) s).overrides.queryParams =
       s.overrides.queryParams ∧
     (updateOverrides (OverrideUpdate.body b) s).overrides.headers = s.overrides.headers) ∧
    (updateOverrides (OverrideUpdate.headers [("Authorization", "Bearer x")])
        initialState).overrides =
      { queryParams := [], headers := [("Authorization", "Bearer x")], body := none } :=
  ⟨⟨rfl, rfl, rfl⟩, ⟨rfl, rfl, rfl⟩, ⟨rfl, rfl, rfl⟩, rfl⟩

/-- Witness for C6 at the claim's concrete update. -/
theorem c6_update_overrides_witness :
    (updateOverrides (OverrideUpdate.headers [("Authorization", "Bearer x")])
        initialState).overrides =
      { queryParams := [], headers := [("Authorization", "Bearer x")], body := none } :=
  (c6_update_overrides [] [] none initialState).2.2.2

/-- Claim C7: during a drag session, every pointer move sets the dragged
column's width to `max(50, startWidth + (pointerX - startPointerX))` and
changes no other column's width; with `startWidth = 80` a move of +40
yields 120 and a move of -60 yields the clamped 50 (the session captures
`startWidth = 80` from the initial method-column width). -/
theorem c7_column_resize (c c' : ColumnKey) (startX startWidth clientX : Int)
    (w : ColumnWidths) (hne : c' ≠ c) :
    (handleMouseMove c startX startWidth clientX w).get c =
      max 50 (startWidth + (clientX - startX)) ∧
    (handleMouseMove c startX startWidth clientX w).get c' = w.get c' ∧
    (handleMouseMove ColumnKey.method
      (handleMouseDown ColumnKey.method 100 initialColumnWidths).startX
      (handleMouseDown ColumnKey.method 100 initialColumnWidths).startWidth
      140 initialColumnWidths).get ColumnKey.method = 120 ∧
    (handleMouseMove ColumnKey.method
      (handleMouseDown ColumnKey.method 100 initialColumnWidths).startX
      (handleMouseDown ColumnKey.method 100 initialColumnWidths).startWidth
      40 initialColumnWidths).get ColumnKey.method = 50 := by
  refine ⟨?_, ?_, by decide, by decide⟩
  · cases c <;> rfl
  · cases c <;> cases c' <;> first | rfl | exact absurd rfl hne

/-- Witness for C7: move the method column by +40 from width 80 and
check the domain column is untouched. -/
theorem c7_column_resize_witness :
    (handleMouseMove ColumnKey.method 0 80 40 initialColumnWidths).get ColumnKey.method =
      120 ∧
    (handleMouseMove ColumnKey.method 0 80 40 initialColumnWidths).get ColumnKey.domain =
      initialColumnWidths.get ColumnKey.domain := by
  have h := c7_column_resize ColumnKey.method ColumnKey.domain 0 80 40
    initialColumnWidths (by decide)
  exact ⟨by rw [h.1]; decide, h.2.1⟩

/-- Claim C8: the hydration flag is `false` in the initial state, stays
`false` under every component-invoked action, and becomes `true` after
rehydration (with or without a stored snapshot), staying `true`
afterwards — so it flips exactly once, only after the persisted snapshot
has been restored. The snapshot produced by `partialize` carries the job
identity, prompt text, match result, UI tab selections, overrides,
execution settings, execution counter and last execution result, and
restoring it never touches `isExecuting`, `isGenerating` or
`_hasHydrated`, so the in-flight flags restart `false`. -/
theorem c8_hydration (p : PersistedSnapshot) (s : AppState) (as : List Action) :
    initialState._hasHydrated = false ∧
    (runActions as initialState)._hasHydrated = false ∧
    (∀ (a : Action) (t : AppState), (a.apply t)._hasHydrated = t._hasHydrated) ∧
    (rehydrate (some p) s)._hasHydrated = true ∧
    (rehydrate none s)._hasHydrated = true ∧
    (runActions as (rehydrate (some p) s))._hasHydrated = true ∧
    (partialize s).jobId = s.jobId ∧
    (partialize s).fileName = s.fileName ∧
    (partialize s).totalRequests = s.totalRequests ∧
    (partialize s).promptText = s.promptText ∧
    (partialize s).curlCommand = s.curlCommand ∧
    (partialize s).matchedRequest = s.matchedRequest ∧
    (partialize s).selectedRequestId = s.selectedRequestId ∧
    (partialize s).modelUsed = s.modelUsed ∧
    (partialize s).activeDetailsTab = s.activeDetailsTab ∧
    (partialize s).activeParamsTab = s.activeParamsTab ∧
    (partialize s).activeResponseTab = s.activeResponseTab ∧
    (partialize s).overrides = s.overrides ∧
    (partialize s).executionSettings = s.executionSettings ∧
    (partialize s).executionCount = s.executionCount ∧
    (partialize s).executionResult = s.executionResult ∧
    (applySnapshot p s).isExecuting = s.isExecuting ∧
    (applySnapshot p s).isGenerating = s.isGenerating ∧
    (applySnapshot p s)._hasHydrated = s._hasHydrated ∧
    (rehydrate (some p) initialState).isExecuting = false ∧
    (rehydrate (some p) initialState).isGenerating = false ∧
    (applySnapshot p s).promptText = p.promptText ∧
    (applySnapshot p s).jobId = p.jobId ∧
    (applySnapshot p s).curlCommand = p.curlCommand ∧
    (applySnapshot p s).executionResult = p.executionResult :=
  ⟨rfl, by rw [runActions_hasHydrated]; rfl, apply_hasHydrated, rfl, rfl,
   by rw [runActions_hasHydrated]; rfl, rfl, rfl, rfl, rfl, rfl, rfl, rfl, rfl,
   rfl, rfl, rfl, rfl, rfl, rfl, rfl, rfl, rfl, rfl, rfl, rfl, rfl, rfl,
   rfl, rfl⟩

/-- Witness for C8 with a concrete persisted snapshot. -/
theorem c8_hydration_witness :
    initialState._hasHydrated = false ∧
    (rehydrate (some (partialize staleState)) initialState)._hasHydrated = true :=
  ⟨(c8_hydration (partialize staleState) initialState []).1,
   (c8_hydration (partialize staleState) initialState []).2.2.2.1⟩

/-- Claim C9: `setJobId("j1", "a.har", 0)` sets exactly `jobId`,
`fileName` and `totalRequests`, and every other store field keeps its
prior value. -/
theorem c9_set_job_id (s : AppState) :
    (setJobId (some "j1") (some "a.har") 0 s).jobId = some "j1" ∧
    (setJobId (some "j1") (some "a.har") 0 s).fileName = some "a.har" ∧
    (setJobId (some "j1") (some "a.har") 0 s).totalRequests = 0 ∧
    (setJobId (some "j1") (some "a.har") 0 s)._hasHydrated = s._hasHydrated ∧
    (setJobId (some "j1") (some "a.har") 0 s).uploadProgress = s.uploadProgress ∧
    (setJobId (some "j1") (some "a.har") 0 s).promptText = s.promptText ∧
    (setJobId (some "j1") (some "a.har") 0 s).isGenerating = s.isGenerating ∧
    (setJobId (some "j1") (some "a.har") 0 s).curlCommand = s.curlCommand ∧
    (setJobId (some "j1") (some "a.har") 0 s).matchedRequest = s.matchedRequest ∧
    (setJobId (some "j1") (some "a.har") 0 s).selectedRequestId = s.selectedRequestId ∧
    (setJobId (some "j1") (some "a.har") 0 s).modelUsed = s.modelUsed ∧
    (setJobId (some "j1") (some "a.har") 0 s).activeDetailsTab = s.activeDetailsTab ∧
    (setJobId (some "j1") (some "a.har") 0 s).activeParamsTab = s.activeParamsTab ∧
    (setJobId (some "j1") (some "a.har") 0 s).activeResponseTab = s.activeResponseTab ∧
    (setJobId (some "j1") (some "a.har") 0 s).overrides = s.overrides ∧
    (setJobId (some "j1") (some "a.har") 0 s).executionSettings = s.executionSettings ∧
    (setJobId (some "j1") (some "a.har") 0 s).executionCount = s.executionCount ∧
    (setJobId (some "j1") (some "a.har") 0 s).isExecuting = s.isExecuting ∧
    (setJobId (some "j1") (some "a.har") 0 s).executionResult = s.executionResult :=
  ⟨rfl, rfl, rfl, rfl, rfl, rfl, rfl, rfl, rfl, rfl, rfl, rfl, rfl, rfl, rfl,
   rfl, rfl, rfl, rfl⟩

/-- Witness for C9 at the initial state. -/
theorem c9_set_job_id_witness :
    (setJobId (some "j1") (some "a.har") 0 initialState).jobId = some "j1" ∧
    (setJobId (some "j1") (some "a.har") 0 initialState).executionResult =
      initialState.executionResult :=
  ⟨(c9_set_job_id initialState).1,
   (c9_set_job_id initialState).2.2.2.2.2.2.2.2.2.2.2.2.2.2.2.2.2.2⟩

/-- The job-scoped data fields of the store, all at their cleared
initial values. -/
def jobScopedCleared (s : AppState) : Prop :=
  s.curlCommand = none ∧ s.matchedRequest = none ∧ s.selectedRequestId = none ∧
  s.modelUsed = none ∧ s.executionResult = none ∧ s.overrides = initialOverrides ∧
  s.executionCount = 0 ∧ s.promptText = ""

/-- Claim C10: the public clear path `setJobId(null, "", 0)` leaves the
previous job's generation results, `executionResult`, overrides,
`executionCount` and prompt text unchanged; among the store's
component-invoked actions only `resetState` clears all those job-scoped
fields; hence after clearing, a store that held results keeps
`jobId = null` together with non-null match and execution results from
the superseded job. -/
theorem c10_clear_path_keeps_job_data (s : AppState) (a : Action) :
    ((setJobId none (some "") 0 s).jobId = none ∧
     (setJobId none (some "") 0 s).curlCommand = s.curlCommand ∧
     (setJobId none (some "") 0 s).matchedRequest = s.matchedRequest ∧
     (setJobId none (some "") 0 s).selectedRequestId = s.selectedRequestId ∧
     (setJobId none (some "") 0 s).modelUsed = s.modelUsed ∧
     (setJobId none (some "") 0 s).executionResult = s.executionResult ∧
     (setJobId none (some "") 0 s).overrides = s.overrides ∧
     (setJobId none (some "") 0 s).executionCount = s.executionCount ∧
     (setJobId none (some "") 0 s).promptText = s.promptText) ∧
    ((∀ t : AppState, jobScopedCleared (a.apply t)) ↔ a = Action.resetState) ∧
    ((setJobId none (some "") 0 staleState).jobId = none ∧
     (setJobId none (some "") 0 staleState).curlCommand =
       some "curl https://api.example.com/v1/items" ∧
     (setJobId none (some "") 0 staleState).executionResult = some sampleFailure) := by
  refine ⟨⟨rfl, rfl, rfl, rfl, rfl, rfl, rfl, rfl, rfl⟩, ⟨?_, ?_⟩,
    ⟨rfl, rfl, rfl⟩⟩
  · intro h
    rcases apply_curlCommand a staleState with hc | ⟨c, hc⟩ | hr
    · have h1 := (h staleState).1
      rw [hc] at h1
      exact absurd h1 (by decide)
    · have h1 := (h staleState).1
      rw [hc] at h1
      exact Option.noConfusion h1
    · exact hr
  · intro h t
    subst h
    exact ⟨rfl, rfl, rfl, rfl, rfl, rfl, rfl, rfl⟩

/-- Witness for C10: the concrete stale store after the clear path, and
`resetState` as the action that does clear the job-scoped fields. -/
theorem c10_clear_path_witness :
    (setJobId none (some "") 0 staleState).jobId = none ∧
    (setJobId none (some "") 0 staleState).curlCommand =
      some "curl https://api.example.com/v1/items" ∧
    jobScopedCleared (Action.apply Action.resetState staleState) :=
  ⟨(c10_clear_path_keeps_job_data staleState Action.resetState).2.2.1,
   (c10_clear_path_keeps_job_data staleState Action.resetState).2.2.2.1,
   ((c10_clear_path_keeps_job_data staleState Action.resetState).2.1.mpr rfl)
     staleState⟩

end ReverseApiCreator
